import Mathlib

/-!
Verification of the authentication and account-security core of the
repository (backend of assignment 10): the account lockout state machine
(`AuthService.authenticate_user` in `src/auth.py` together with
`User.is_locked` in `src/database.py`), the JWT token manager
(`TokenManager` in `src/auth.py`), and the password strength checker
(`PasswordStrengthChecker` and `verify_password` in `src/utils/password.py`).

Conventions of the embedding:
* timestamps (`datetime.utcnow()`, `locked_until`, `exp`, `iat`) are unix
  seconds as `Int`; a `timedelta` is its total number of seconds;
* bcrypt hashing/verification (`passlib`) is an external library, modelled
  as an oracle argument: a function from plaintext and hash to a result,
  with an error channel for the exceptions `pwd_context.verify` may raise;
* the JWT signing layer (`python-jose`) is modelled by a token that carries
  its decoded payload and the key it was signed with: `jwt.decode` checks
  the key (the signature) and then the `exp` claim, exactly in that order,
  raising distinct errors, as `jose` does;
* the scores built up by `+=`/`-=` in the Python dict results are `Int`
  (pattern penalties can drive them negative), and the normalized 0-100
  score is `ℚ` (in Python the value `total / 8 * 100` is a dyadic float,
  so the rational value is exact);
* the `entropy` float field of `get_strength_score` is not modelled: it is
  floating-point and feeds only the `entropy` output field, never the
  `valid`, `score` or `strength` fields the properties are about.
-/

/-- The `Settings` fields of `src/config.py` that the verified core reads
(defaults as in the source). Durations keep the unit of the source field
(minutes resp. days); conversions to seconds happen at use sites. -/
structure Settings where
  accessTokenExpireMinutes : Int
  refreshTokenExpireDays : Int
  minPasswordLength : Nat
  maxPasswordLength : Nat
  requireUppercase : Bool
  requireLowercase : Bool
  requireNumbers : Bool
  requireSpecialChars : Bool
  maxLoginAttempts : Nat
  lockoutDurationMinutes : Int
  deriving Repr, DecidableEq

/-- The default values of `Settings` in `src/config.py`. -/
def defaultSettings : Settings :=
  { accessTokenExpireMinutes := 30
    refreshTokenExpireDays := 7
    minPasswordLength := 8
    maxPasswordLength := 128
    requireUppercase := true
    requireLowercase := true
    requireNumbers := true
    requireSpecialChars := false
    maxLoginAttempts := 5
    lockoutDurationMinutes := 15 }

/-- The fields of the `User` model (`src/database.py`) that
`AuthService.authenticate_user` reads and writes. -/
structure UserRec where
  hashedPassword : String
  isActive : Bool
  failedLoginAttempts : Nat
  lockedUntil : Option Int
  lastLogin : Option Int
  deriving Repr, DecidableEq

/-- `User.is_locked` (`src/database.py` lines 71-76): locked iff
`locked_until` is set and `utcnow() < locked_until`. -/
def UserRec.is_locked (u : UserRec) (now : Int) : Bool :=
  match u.lockedUntil with
  | none => false
  | some t => now < t

/-- The observable outcome of `AuthService.authenticate_user` for a user
that was found: the two `AuthenticationError` raises, the `return None` of
the wrong-password branch, and the `return user` of the success branch. -/
inductive AuthOutcome where
  | lockedError
  | disabledError
  | invalidCredentials
  | success
  deriving Repr, DecidableEq

/-- `AuthService.authenticate_user` (`src/auth.py` lines 124-159) for a
found user. `verify` is the bcrypt oracle (`verify_password`, already
exception-safe, see `verify_password` below). Returns the outcome together
with the user record as it is left in the database: the locked and disabled
raises happen before any mutation; the wrong-password branch increments
`failed_login_attempts` and sets `locked_until` once the counter reaches
`max_login_attempts`; the success branch resets the counters and stamps
`last_login`. -/
def authenticate_user (verify : String → String → Bool) (s : Settings)
    (u : UserRec) (password : String) (now : Int) : AuthOutcome × UserRec :=
  if u.is_locked now then
    (.lockedError, u)
  else if !u.isActive then
    (.disabledError, u)
  else if !(verify password u.hashedPassword) then
    let fa := u.failedLoginAttempts + 1
    let u' : UserRec :=
      { u with
        failedLoginAttempts := fa
        lockedUntil :=
          if s.maxLoginAttempts ≤ fa then
            some (now + s.lockoutDurationMinutes * 60)
          else u.lockedUntil }
    (.invalidCredentials, u')
  else
    (.success,
      { u with
        failedLoginAttempts := 0
        lockedUntil := none
        lastLogin := some now })

/-- Repeated authentication attempts with the same password, one per
timestamp in the list, each acting on the user record the previous attempt
left in the database. -/
def runAttempts (verify : String → String → Bool) (s : Settings)
    (password : String) : UserRec → List Int → UserRec
  | u, [] => u
  | u, t :: ts =>
      runAttempts verify s password (authenticate_user verify s u password t).2 ts

/-- A decoded JWT payload: the claims the repository puts in and reads out
(`sub`, `user_id`, `exp`, `type`, `iat`); absent keys are `none`, matching
`payload.get(...)` returning `None`. -/
structure Payload where
  sub : Option String := none
  user_id : Option Int := none
  exp : Option Int := none
  type : Option String := none
  iat : Option Int := none
  deriving Repr, DecidableEq

/-- A signed token as produced by `jwt.encode(to_encode, secret_key,
algorithm)`: the payload plus the key it was signed with (the symmetric
signature is modelled by remembering the key). -/
structure Token where
  payload : Payload
  key : String
  deriving Repr, DecidableEq

/-- The `JWTError`s of the `jose` signature layer that `verify_token` can
see: a bad signature, an expired `exp` claim, or any other decode failure. -/
inductive JoseError where
  | invalidSignature
  | expiredSignature
  | otherError
  deriving Repr, DecidableEq

/-- `jose.jwt.decode(token, key, algorithms)`: verifies the signature first
(raising on mismatch), then validates the `exp` claim when present, raising
`ExpiredSignatureError` when `exp < now`; on success returns the payload. -/
def jwt_decode (token : Token) (key : String) (now : Int) :
    Except JoseError Payload :=
  if token.key ≠ key then
    .error .invalidSignature
  else
    match token.payload.exp with
    | some e => if e < now then .error .expiredSignature else .ok token.payload
    | none => .ok token.payload

/-- The distinct `AuthenticationError`s `TokenManager.verify_token` raises,
told apart by their message: `Invalid token type. Expected {a}, got {b}`,
`Token missing user information`, the explicit `Token has expired`, and the
`Token validation failed: {e}` wrapper around any `JWTError` from the
signature layer. -/
inductive TokenError where
  | invalidTokenType (expected : String) (got : Option String)
  | missingUserInformation
  | tokenExpired
  | validationFailed (e : JoseError)
  deriving Repr, DecidableEq

/-- `schemas.TokenData` as built by `verify_token`. -/
structure TokenData where
  email : String
  user_id : Option Int
  deriving Repr, DecidableEq

/-- `TokenManager.create_access_token` (`src/auth.py` lines 31-47). Python
truthiness of `if expires_delta:` means a zero `timedelta` falls back to the
default expiry, like `None`. `expires_delta` is in seconds. -/
def create_access_token (s : Settings) (key : String) (data : Payload)
    (expires_delta : Option Int) (now : Int) : Token :=
  let expire :=
    match expires_delta with
    | some d => if d ≠ 0 then now + d else now + s.accessTokenExpireMinutes * 60
    | none => now + s.accessTokenExpireMinutes * 60
  { payload := { data with exp := some expire, type := some "access", iat := some now }
    key := key }

/-- `TokenManager.create_refresh_token` (`src/auth.py` lines 49-65); same
shape with the `refresh` type and a default of `refresh_token_expire_days`. -/
def create_refresh_token (s : Settings) (key : String) (data : Payload)
    (expires_delta : Option Int) (now : Int) : Token :=
  let expire :=
    match expires_delta with
    | some d => if d ≠ 0 then now + d else now + s.refreshTokenExpireDays * 86400
    | none => now + s.refreshTokenExpireDays * 86400
  { payload := { data with exp := some expire, type := some "refresh", iat := some now }
    key := key }

/-- `TokenManager.verify_token` (`src/auth.py` lines 67-93): decode via the
signature layer (any `JWTError` is re-raised as the `Token validation
failed` wrapper), then check the `type` claim, then require `sub`, then the
redundant explicit expiry check (`if exp and ... < utcnow()`, so an `exp`
of `0` is skipped by Python truthiness), and finally build `TokenData`. -/
def verify_token (key : String) (token : Token)
    (token_type : String) (now : Int) : Except TokenError TokenData :=
  match jwt_decode token key now with
  | .error e => .error (.validationFailed e)
  | .ok payload =>
    if payload.type ≠ some token_type then
      .error (.invalidTokenType token_type payload.type)
    else if payload.sub = none then
      .error .missingUserInformation
    else
      let expiredNow :=
        match payload.exp with
        | some e => e ≠ 0 && e < now
        | none => false
      if expiredNow then
        .error .tokenExpired
      else
        .ok { email := payload.sub.getD "", user_id := payload.user_id }

/-- The regex character class `[A-Z]` of `check_complexity`. -/
def isAsciiUpper (c : Char) : Bool := 65 ≤ c.toNat && c.toNat ≤ 90

/-- The regex character class `[a-z]` of `check_complexity`. -/
def isAsciiLower (c : Char) : Bool := 97 ≤ c.toNat && c.toNat ≤ 122

/-- The regex character class `[0-9]` of `check_complexity`. -/
def isAsciiDigit (c : Char) : Bool := 48 ≤ c.toNat && c.toNat ≤ 57

/-- The literal special-character class of `check_complexity` and
`calculate_entropy`: `[!@#$%^&*(),.?":{}|<>]`. -/
def specialChars : List Char :=
  ['!', '@', '#', '$', '%', '^', '&', '*', '(', ')', ',', '.', '?', '\"',
   ':', '\x7b', '\x7d', '|', '<', '>']

/-- Membership in the special-character class. -/
def isSpecialChar (c : Char) : Bool := specialChars.contains c

/-- `re.search` with a single character class: does any character of the
string match. -/
def hasClass (password : String) (f : Char → Bool) : Bool :=
  password.toList.any f

/-- Python substring containment `needle in hay` over characters. -/
def containsSub (needle : List Char) : List Char → Bool
  | [] => needle.isEmpty
  | c :: rest => List.isPrefixOf needle (c :: rest) || containsSub needle rest

/-- The regex `(.)\1{2,}` of `check_common_patterns`: some character occurs
at least three times consecutively. -/
def hasTripleRepeat : List Char → Bool
  | c₁ :: c₂ :: c₃ :: rest =>
      (c₁ == c₂ && c₂ == c₃) || hasTripleRepeat (c₂ :: c₃ :: rest)
  | _ => false

/-- The `common_passwords` list of `check_common_patterns`. -/
def commonPasswords : List String :=
  ["123456", "password", "qwerty", "abc123", "letmein",
   "welcome", "monkey", "1234567890", "admin", "guest",
   "123456789", "password123", "qwerty123"]

/-- The `sequences` list of `check_common_patterns`. -/
def sequencePatterns : List String :=
  ["123", "234", "345", "456", "567", "678", "789", "abc", "bcd", "cde"]

/-- The `keyboard_patterns` list of `check_common_patterns`. -/
def keyboardPatterns : List String :=
  ["qwerty", "asdf", "zxcv", "1234", "4321"]

/-- The result dict of `PasswordStrengthChecker.check_length`. -/
structure LengthResult where
  valid : Bool
  errors : List String
  score : Int
  deriving Repr, DecidableEq

/-- `PasswordStrengthChecker.check_length` (`src/utils/password.py` lines
26-50): below-minimum is a violation, at/above minimum scores 1; above
maximum is a violation; the two long-password bonuses (`>= 12`, `>= 16`)
are added unconditionally at the end. -/
def check_length (s : Settings) (password : String) : LengthResult :=
  let n := password.length
  let r : LengthResult := { valid := true, errors := [], score := 0 }
  let r :=
    if n < s.minPasswordLength then
      { r with valid := false
               errors := r.errors ++
                 ["Password must be at least " ++ toString s.minPasswordLength ++
                  " characters long"] }
    else
      { r with score := r.score + 1 }
  let r :=
    if s.maxPasswordLength < n then
      { r with valid := false
               errors := r.errors ++
                 ["Password must not exceed " ++ toString s.maxPasswordLength ++
                  " characters"] }
    else r
  let r := if 12 ≤ n then { r with score := r.score + 1 } else r
  if 16 ≤ n then { r with score := r.score + 1 } else r

/-- The result dict of `PasswordStrengthChecker.check_complexity`, with the
`requirements_met` entries as four booleans. -/
structure ComplexityResult where
  valid : Bool
  errors : List String
  score : Int
  hasUppercase : Bool
  hasLowercase : Bool
  hasNumbers : Bool
  hasSpecialChars : Bool
  deriving Repr, DecidableEq

/-- `PasswordStrengthChecker.check_complexity` (`src/utils/password.py`
lines 52-97): for each of the four classes, a required-and-missing class is
a violation; a present class (required or not) scores 1. -/
def check_complexity (s : Settings) (password : String) : ComplexityResult :=
  let hasU := hasClass password isAsciiUpper
  let hasL := hasClass password isAsciiLower
  let hasN := hasClass password isAsciiDigit
  let hasS := hasClass password isSpecialChar
  let r : ComplexityResult :=
    { valid := true, errors := [], score := 0
      hasUppercase := hasU, hasLowercase := hasL
      hasNumbers := hasN, hasSpecialChars := hasS }
  let r :=
    if s.requireUppercase && !hasU then
      { r with valid := false
               errors := r.errors ++
                 ["Password must contain at least one uppercase letter"] }
    else if hasU then { r with score := r.score + 1 } else r
  let r :=
    if s.requireLowercase && !hasL then
      { r with valid := false
               errors := r.errors ++
                 ["Password must contain at least one lowercase letter"] }
    else if hasL then { r with score := r.score + 1 } else r
  let r :=
    if s.requireNumbers && !hasN then
      { r with valid := false
               errors := r.errors ++
                 ["Password must contain at least one number"] }
    else if hasN then { r with score := r.score + 1 } else r
  if s.requireSpecialChars && !hasS then
    { r with valid := false
             errors := r.errors ++
               ["Password must contain at least one special character"] }
  else if hasS then { r with score := r.score + 1 } else r

/-- The result dict of `PasswordStrengthChecker.check_common_patterns`. -/
structure PatternResult where
  valid : Bool
  errors : List String
  score : Int
  patternsFound : List String
  deriving Repr, DecidableEq

/-- `PasswordStrengthChecker.check_common_patterns` (`src/utils/password.py`
lines 99-147): common weak passwords are hard violations; sequential
patterns, a thrice-repeated character, and keyboard patterns are soft -1
penalties; a password with no pattern found at all gets a +2 bonus. All
substring scans except the repetition regex act on the lower-cased
password. -/
def check_common_patterns (password : String) : PatternResult :=
  let pl := password.toList.map Char.toLower
  let r : PatternResult := { valid := true, errors := [], score := 0, patternsFound := [] }
  let r := commonPasswords.foldl (fun r common =>
    if containsSub common.toList pl then
      { r with valid := false
               errors := r.errors ++
                 ["Password contains common weak pattern: " ++ common]
               patternsFound := r.patternsFound ++ [common] }
    else r) r
  let r := sequencePatterns.foldl (fun r seq =>
    if containsSub seq.toList pl then
      let r := { r with patternsFound := r.patternsFound ++ ["sequence_" ++ seq] }
      if 3 ≤ seq.length then { r with score := r.score - 1 } else r
    else r) r
  let r :=
    if hasTripleRepeat password.toList then
      { r with patternsFound := r.patternsFound ++ ["repetitive_chars"]
               score := r.score - 1 }
    else r
  let r := keyboardPatterns.foldl (fun r pat =>
    if containsSub pat.toList pl then
      { r with patternsFound := r.patternsFound ++ ["keyboard_" ++ pat]
               score := r.score - 1 }
    else r) r
  if r.patternsFound.isEmpty then { r with score := r.score + 2 } else r

/-- The five strength buckets of `get_strength_score`. -/
inductive Strength where
  | very_weak
  | weak
  | medium
  | strong
  | very_strong
  deriving Repr, DecidableEq

/-- The result dict of `PasswordStrengthChecker.get_strength_score` (the
floating-point `entropy` field is not modelled; see the file header). -/
structure StrengthResult where
  valid : Bool
  score : ℚ
  strength : Strength
  errors : List String
  patternsFound : List String
  lengthCheck : LengthResult
  complexityCheck : ComplexityResult
  patternCheck : PatternResult
  deriving Repr, DecidableEq

/-- The Python builtin `min` on two rationals (kept executable so concrete
scores evaluate by kernel reduction). -/
def pyMin (a b : ℚ) : ℚ := if a ≤ b then a else b

/-- The Python builtin `max` on two rationals. -/
def pyMax (a b : ℚ) : ℚ := if b ≤ a then a else b

/-- `PasswordStrengthChecker.get_strength_score` (`src/utils/password.py`
lines 175-229): total score is the sum of the three sub-scores, normalized
by `min(100, max(0, total / 8 * 100))`, bucketed at 80/60/40/20; validity
is the conjunction of the three sub-validities. -/
def get_strength_score (s : Settings) (password : String) : StrengthResult :=
  let lc := check_length s password
  let cc := check_complexity s password
  let pc := check_common_patterns password
  let total : Int := lc.score + cc.score + pc.score
  let normalized : ℚ := pyMin 100 (pyMax 0 ((total : ℚ) / 8 * 100))
  let strength : Strength :=
    if 80 ≤ normalized then .very_strong
    else if 60 ≤ normalized then .strong
    else if 40 ≤ normalized then .medium
    else if 20 ≤ normalized then .weak
    else .very_weak
  { valid := lc.valid && cc.valid && pc.valid
    score := normalized
    strength := strength
    errors := lc.errors ++ cc.errors ++ pc.errors
    patternsFound := pc.patternsFound
    lengthCheck := lc
    complexityCheck := cc
    patternCheck := pc }

/-- `verify_password` (`src/utils/password.py` lines 237-242).
`pwdContextVerify` is the external `passlib` `pwd_context.verify`, which
either returns a boolean or raises (its error channel); the wrapper
catches every exception and returns `False`. -/
def verify_password (pwdContextVerify : String → String → Except String Bool)
    (plain hashed : String) : Bool :=
  match pwdContextVerify plain hashed with
  | .ok b => b
  | .error _ => false

/-- Auxiliary: a run of consecutive wrong-password attempts that never
reaches the lockout threshold only increments the failure counter, leaving
every other field (in particular `locked_until = none`) unchanged. -/
theorem runAttempts_all_failures (verify : String → String → Bool) (s : Settings)
    (pw : String) :
    ∀ (ts : List Int) (u : UserRec),
      u.isActive = true → u.lockedUntil = none →
      verify pw u.hashedPassword = false →
      u.failedLoginAttempts + ts.length < s.maxLoginAttempts →
      runAttempts verify s pw u ts =
        { u with failedLoginAttempts := u.failedLoginAttempts + ts.length } := by
  intro ts
  induction ts with
  | nil =>
      intro u hact hlu hpw hlt
      simp [runAttempts]
  | cons t ts ih =>
      intro u hact hlu hpw hlt
      have hlock : u.is_locked t = false := by
        simp [UserRec.is_locked, hlu]
      have hnotmax : ¬ s.maxLoginAttempts ≤ u.failedLoginAttempts + 1 := by
        simp only [List.length_cons] at hlt
        omega
      have hstep : (authenticate_user verify s u pw t).2 =
          { u with failedLoginAttempts := u.failedLoginAttempts + 1 } := by
        simp [authenticate_user, hlock, hact, hpw, hnotmax, hlu]
      rw [runAttempts, hstep]
      rw [ih { u with failedLoginAttempts := u.failedLoginAttempts + 1 }
            hact hlu hpw (by simp only [List.length_cons] at hlt ⊢; omega)]
      simp only [List.length_cons]
      congr 1
      omega

/-- C1: starting from an active account with `failed_login_attempts = 0`
and no lockout, a sequence of `max_login_attempts` consecutive
wrong-password attempts leaves the account not locked (counter `k`,
`locked_until = none`) after each of the first `N-1` failures, and the
`N`-th failure sets `locked_until = now + lockout_duration_minutes * 60`
with the counter at `N`. -/
theorem lockout_on_nth_failure (verify : String → String → Bool) (s : Settings)
    (u : UserRec) (pw : String) (ts : List Int) (t : Int)
    (hact : u.isActive = true)
    (hfa : u.failedLoginAttempts = 0)
    (hlu : u.lockedUntil = none)
    (hpw : verify pw u.hashedPassword = false)
    (hlen : ts.length + 1 = s.maxLoginAttempts) :
    (∀ k ≤ ts.length,
       (runAttempts verify s pw u (ts.take k)).lockedUntil = none ∧
       (runAttempts verify s pw u (ts.take k)).failedLoginAttempts = k) ∧
    authenticate_user verify s (runAttempts verify s pw u ts) pw t =
      (.invalidCredentials,
       { runAttempts verify s pw u ts with
           failedLoginAttempts := s.maxLoginAttempts
           lockedUntil := some (t + s.lockoutDurationMinutes * 60) }) := by
  have hrun : ∀ k ≤ ts.length,
      runAttempts verify s pw u (ts.take k) =
        { u with failedLoginAttempts := k } := by
    intro k hk
    have h := runAttempts_all_failures verify s pw (ts.take k) u hact hlu hpw
      (by
        rw [List.length_take]
        omega)
    rw [h, hfa]
    congr 1
    rw [List.length_take]
    omega
  constructor
  · intro k hk
    rw [hrun k hk]
    exact ⟨hlu, rfl⟩
  · have hts : runAttempts verify s pw u ts =
        { u with failedLoginAttempts := ts.length } := by
      have := hrun ts.length le_rfl
      rwa [List.take_length] at this
    rw [hts]
    have hmax : s.maxLoginAttempts ≤ ts.length + 1 := by omega
    simp [authenticate_user, UserRec.is_locked, hlu, hact, hpw, hmax]
    omega

/-- Witness for `lockout_on_nth_failure`: the default threshold 5, four
failure timestamps then a fifth attempt at time 10, on a fresh account. -/
theorem lockout_on_nth_failure_witness :
    ((fun (_ _ : String) => false) "pw" "h" = false ∧
     (UserRec.mk "h" true 0 none none).isActive = true ∧
     ([0, 1, 2, 3] : List Int).length + 1 = defaultSettings.maxLoginAttempts) ∧
    ((∀ k ≤ ([0, 1, 2, 3] : List Int).length,
       (runAttempts (fun _ _ => false) defaultSettings "pw"
          (UserRec.mk "h" true 0 none none) (([0, 1, 2, 3] : List Int).take k)).lockedUntil = none ∧
       (runAttempts (fun _ _ => false) defaultSettings "pw"
          (UserRec.mk "h" true 0 none none) (([0, 1, 2, 3] : List Int).take k)).failedLoginAttempts = k) ∧
     authenticate_user (fun _ _ => false) defaultSettings
       (runAttempts (fun _ _ => false) defaultSettings "pw"
          (UserRec.mk "h" true 0 none none) [0, 1, 2, 3]) "pw" 10 =
       (.invalidCredentials,
        { runAttempts (fun _ _ => false) defaultSettings "pw"
            (UserRec.mk "h" true 0 none none) [0, 1, 2, 3] with
            failedLoginAttempts := defaultSettings.maxLoginAttempts
            lockedUntil := some (10 + defaultSettings.lockoutDurationMinutes * 60) })) :=
  ⟨⟨rfl, rfl, by decide⟩,
   lockout_on_nth_failure (fun _ _ => false) defaultSettings
     (UserRec.mk "h" true 0 none none) "pw" [0, 1, 2, 3] 10
     rfl rfl rfl rfl (by decide)⟩

/-- C2: an account that is locked (`locked_until` set and strictly in the
future) is rejected with the locked error even when the supplied password
is correct, and the stored record (in particular `failed_login_attempts`
and `locked_until`) is unchanged: the raise happens before the credential
check. -/
theorem locked_rejects_correct_password (verify : String → String → Bool)
    (s : Settings) (u : UserRec) (pw : String) (now T : Int)
    (hlu : u.lockedUntil = some T) (hnow : now < T)
    (_hpw : verify pw u.hashedPassword = true) :
    authenticate_user verify s u pw now = (.lockedError, u) := by
  simp [authenticate_user, UserRec.is_locked, hlu, hnow]

/-- Witness for `locked_rejects_correct_password`: a lockout until time 100
evaluated at time 0, with a verifier that accepts the password. -/
theorem locked_rejects_correct_password_witness :
    ((UserRec.mk "h" true 2 (some 100) none).lockedUntil = some 100 ∧
     (0 : Int) < 100 ∧
     (fun (_ _ : String) => true) "pw" "h" = true) ∧
    authenticate_user (fun _ _ => true) defaultSettings
      (UserRec.mk "h" true 2 (some 100) none) "pw" 0 =
      (.lockedError, UserRec.mk "h" true 2 (some 100) none) :=
  ⟨⟨rfl, by decide, rfl⟩,
   locked_rejects_correct_password (fun _ _ => true) defaultSettings
     (UserRec.mk "h" true 2 (some 100) none) "pw" 0 100 rfl (by decide) rfl⟩

/-- C3: every successful authentication leaves the stored record with
`failed_login_attempts = 0`, `locked_until = None` and `last_login = now`;
in particular an account whose `locked_until` has already passed
(`locked_until = some T`, `T ≤ now`) succeeds with a correct password and
ends with the counter at 0. -/
theorem success_resets_counters (verify : String → String → Bool) (s : Settings)
    (u : UserRec) (pw : String) (now : Int) :
    ((authenticate_user verify s u pw now).1 = .success →
      (authenticate_user verify s u pw now).2 =
        { u with failedLoginAttempts := 0, lockedUntil := none, lastLogin := some now }) ∧
    (∀ T, u.lockedUntil = some T → T ≤ now → u.isActive = true →
      verify pw u.hashedPassword = true →
      authenticate_user verify s u pw now =
        (.success,
         { u with failedLoginAttempts := 0, lockedUntil := none, lastLogin := some now })) := by
  constructor
  · intro h
    by_cases h1 : u.is_locked now = true
    · simp [authenticate_user, h1] at h
    · by_cases h2 : u.isActive = true
      · by_cases h3 : verify pw u.hashedPassword = true
        · simp [authenticate_user, h1, h2, h3]
        · simp [authenticate_user, h1, h2, h3] at h
      · simp [authenticate_user, h1, h2] at h
  · intro T hT hTnow hact hpw
    have hlock : u.is_locked now = false := by
      simp [UserRec.is_locked, hT]
      omega
    simp [authenticate_user, hlock, hact, hpw]

/-- Witness for `success_resets_counters`: a lockout that expired at time
100, evaluated at time 200 with a correct password. -/
theorem success_resets_counters_witness :
    ((UserRec.mk "h" true 3 (some 100) none).lockedUntil = some 100 ∧
     (100 : Int) ≤ 200 ∧
     (UserRec.mk "h" true 3 (some 100) none).isActive = true ∧
     (fun (_ _ : String) => true) "pw" "h" = true) ∧
    authenticate_user (fun _ _ => true) defaultSettings
      (UserRec.mk "h" true 3 (some 100) none) "pw" 200 =
      (.success, UserRec.mk "h" true 0 none (some 200)) :=
  ⟨⟨rfl, by decide, rfl, rfl⟩,
   (success_resets_counters (fun _ _ => true) defaultSettings
      (UserRec.mk "h" true 3 (some 100) none) "pw" 200).2 100 rfl (by decide) rfl rfl⟩

/-- C4 counterexample: the claim says the `isActive = false` check
short-circuits before any lockout check, so a disabled account inside a
lockout window would yield the disabled outcome; in the code `is_locked`
is checked first, and such an account yields the locked error. -/
theorem disabled_claim_counterexample :
    (authenticate_user (fun _ _ => true) defaultSettings
       (UserRec.mk "h" false 3 (some 100) none) "pw" 0).1 = .lockedError ∧
    (authenticate_user (fun _ _ => true) defaultSettings
       (UserRec.mk "h" false 3 (some 100) none) "pw" 0).1 ≠ .disabledError := by
  decide

/-- C4 amended: the disabled rejection applies regardless of the counters
only once the account is not currently locked: for an inactive account
whose `is_locked` is false at evaluation time, authentication is rejected
as disabled before any credential check and the record is unchanged. -/
theorem disabled_rejected_when_not_locked (verify : String → String → Bool)
    (s : Settings) (u : UserRec) (pw : String) (now : Int)
    (hinact : u.isActive = false) (hnl : u.is_locked now = false) :
    authenticate_user verify s u pw now = (.disabledError, u) := by
  simp [authenticate_user, hnl, hinact]

/-- Witness for `disabled_rejected_when_not_locked`: an inactive account
with a stale lockout timestamp (already passed) and a nonzero failure
counter, evaluated at the lockout boundary. -/
theorem disabled_rejected_when_not_locked_witness :
    ((UserRec.mk "h" false 7 (some 100) none).isActive = false ∧
     (UserRec.mk "h" false 7 (some 100) none).is_locked 100 = false) ∧
    authenticate_user (fun _ _ => true) defaultSettings
      (UserRec.mk "h" false 7 (some 100) none) "pw" 100 =
      (.disabledError, UserRec.mk "h" false 7 (some 100) none) :=
  ⟨⟨rfl, by decide⟩,
   disabled_rejected_when_not_locked (fun _ _ => true) defaultSettings
     (UserRec.mk "h" false 7 (some 100) none) "pw" 100 rfl (by decide)⟩

/-- Auxiliary evaluation of the three strength-relevant fields of
`get_strength_score` on the empty password: the pattern check finds
nothing and awards +2, so the total is 2 and the normalized score
`2 / 8 * 100 = 25`, in the `weak` bucket, while length and complexity
violations make it invalid. -/
theorem empty_password_components :
    (get_strength_score defaultSettings "").score = 25 ∧
    (get_strength_score defaultSettings "").strength = .weak ∧
    (get_strength_score defaultSettings "").valid = false := by
  have h1 : check_length defaultSettings "" =
      { valid := false
        errors := ["Password must be at least 8 characters long"]
        score := 0 } := rfl
  have h2 : check_complexity defaultSettings "" =
      { valid := false
        errors := ["Password must contain at least one uppercase letter",
                   "Password must contain at least one lowercase letter",
                   "Password must contain at least one number"]
        score := 0
        hasUppercase := false, hasLowercase := false
        hasNumbers := false, hasSpecialChars := false } := rfl
  have h3 : check_common_patterns "" =
      { valid := true, errors := [], score := 2, patternsFound := [] } := rfl
  refine ⟨?_, ?_, ?_⟩ <;>
    simp only [get_strength_score, h1, h2, h3] <;>
    norm_num [pyMin, pyMax]

/-- C5 counterexample: the claim gives the empty password a normalized
score of 0 and strength `very_weak`; in the code `check_common_patterns`
finds no pattern in the empty string and awards its +2 bonus, so the
total is 2, the normalized score 25, and the strength bucket `weak`. -/
theorem empty_password_claim_counterexample :
    ¬ ((get_strength_score defaultSettings "").score = 0 ∧
       (get_strength_score defaultSettings "").strength = .very_weak ∧
       (get_strength_score defaultSettings "").valid = false) := by
  intro h
  have h25 := empty_password_components.1
  rw [h.1] at h25
  norm_num at h25

/-- C5 amended: the empty password evaluates to normalized score 25 (the
no-pattern +2 bonus applies even to it), strength `weak`, and
`valid = false`. -/
theorem empty_password_score :
    (get_strength_score defaultSettings "").score = 25 ∧
    (get_strength_score defaultSettings "").strength = .weak ∧
    (get_strength_score defaultSettings "").valid = false :=
  empty_password_components

set_option maxRecDepth 2000 in
/-- C6 counterexample: the claim gives length sub-score 0 to a password
above the configured maximum; in the code the `>= min`, `>= 12` and
`>= 16` points are awarded regardless of the maximum, so a 129-character
password (maximum 128) scores 3 while still being invalid. -/
theorem length_score_claim_counterexample :
    defaultSettings.maxPasswordLength < (String.mk (List.replicate 129 'a')).length ∧
    (check_length defaultSettings (String.mk (List.replicate 129 'a'))).valid = false ∧
    (check_length defaultSettings (String.mk (List.replicate 129 'a'))).score ≠ 0 := by
  decide

/-- C6 amended: the length sub-score is 1 point once the length reaches
the configured minimum, +1 more at >= 12 and +1 more at >= 16,
independently of the configured maximum (so 0 below the minimum whenever
the minimum is at most 12, as in the default configuration); validity
holds exactly between the minimum and the maximum, both of which are hard
violations. -/
theorem check_length_score_spec (s : Settings) (password : String) :
    (check_length s password).score =
      ((if s.minPasswordLength ≤ password.length then 1 else 0) +
       (if 12 ≤ password.length then 1 else 0) +
       (if 16 ≤ password.length then 1 else 0) : Int) ∧
    ((check_length s password).valid = true ↔
      (s.minPasswordLength ≤ password.length ∧
       password.length ≤ s.maxPasswordLength)) := by
  unfold check_length
  by_cases h1 : password.length < s.minPasswordLength <;>
    by_cases h2 : s.maxPasswordLength < password.length <;>
      by_cases h3 : 12 ≤ password.length <;>
        by_cases h4 : 16 ≤ password.length <;>
          simp [h1, h2, h3, h4] <;> omega

/-- C7 counterexample: a token issued with `expires_delta = -1` second and
verified immediately fails, but with the `Token validation failed` wrapper
around the signature layer's `ExpiredSignatureError` (the path the
repository's own test asserts), not with the explicit `Token has expired`
error kind; so the failure kind is not the explicit `tokenExpired` one. -/
theorem expired_ttl_error_kind_counterexample :
    verify_token "k"
      (create_access_token defaultSettings "k" { sub := some "alice" } (some (-1)) 0)
      "access" 0 =
      .error (.validationFailed .expiredSignature) ∧
    (Except.error (TokenError.validationFailed JoseError.expiredSignature) :
        Except TokenError TokenData) ≠ .error .tokenExpired := by
  constructor
  · rfl
  · intro h
    injection h with h'
    exact TokenError.noConfusion h'

/-- C7 amended: a token issued with `expires_delta = -1` second always
fails verification at any later (or equal) time, with the
`Token validation failed` wrapper carrying the signature layer's
expired-signature error; the explicit `Token has expired` branch is never
reached because `jwt.decode` rejects the token first. -/
theorem expired_ttl_fails_at_signature_layer (s : Settings) (key : String)
    (data : Payload) (now t : Int) (ht : now ≤ t) :
    verify_token key (create_access_token s key data (some (-1)) now) "access" t =
      .error (.validationFailed .expiredSignature) := by
  have hexp : now + (-1) < t := by omega
  simp [create_access_token, verify_token, jwt_decode, hexp]

/-- Witness for `expired_ttl_fails_at_signature_layer`: issuing at time 0
and verifying at the same instant. -/
theorem expired_ttl_fails_at_signature_layer_witness :
    (0 : Int) ≤ 0 ∧
    verify_token "k"
      (create_access_token defaultSettings "k" { sub := some "alice" } (some (-1)) 0)
      "access" 0 =
      .error (.validationFailed .expiredSignature) :=
  ⟨le_refl 0,
   expired_ttl_fails_at_signature_layer defaultSettings "k" { sub := some "alice" } 0 0
     (le_refl 0)⟩

/-- C8: issuing an access token for a subject with any positive ttl and
verifying it (at issuance time) with expected type `access` succeeds and
returns the same subject (and user id) in the claims. -/
theorem access_token_round_trip (s : Settings) (key subject : String)
    (uid : Option Int) (ttl now : Int) (httl : 0 < ttl) :
    verify_token key
      (create_access_token s key { sub := some subject, user_id := uid } (some ttl) now)
      "access" now =
      .ok { email := subject, user_id := uid } := by
  have h1 : ttl ≠ 0 := by omega
  have h2 : ¬ (now + ttl < now) := by omega
  simp [create_access_token, verify_token, jwt_decode, h1, h2]

/-- Witness for `access_token_round_trip`: subject `alice`, user id 1,
ttl 60 seconds, issued and verified at time 0. -/
theorem access_token_round_trip_witness :
    (0 : Int) < 60 ∧
    verify_token "k"
      (create_access_token defaultSettings "k"
        { sub := some "alice", user_id := some 1 } (some 60) 0)
      "access" 0 =
      .ok { email := "alice", user_id := some 1 } :=
  ⟨by decide,
   access_token_round_trip defaultSettings "k" "alice" (some 1) 60 0 (by decide)⟩

/-- The claimed invariant on a single token: its `exp` claim is strictly
greater than its `iat` claim. -/
def expGtIat (t : Token) : Prop :=
  ∀ e i, t.payload.exp = some e → t.payload.iat = some i → i < e

/-- C9 counterexample: the issuing operations accept a negative
`expires_delta` override (the spec requires this very override for expiry
testing), and then `exp` is strictly below `iat`: an access token issued
at time 0 with delta -60 carries `exp = -60`, `iat = 0`. -/
theorem exp_gt_iat_claim_counterexample :
    ¬ expGtIat (create_access_token defaultSettings "k"
        { sub := some "alice" } (some (-60)) 0) := by
  intro h
  have he : (create_access_token defaultSettings "k"
      { sub := some "alice" } (some (-60)) 0).payload.exp = some (-60) := by decide
  have hi : (create_access_token defaultSettings "k"
      { sub := some "alice" } (some (-60)) 0).payload.iat = some 0 := by decide
  have h60 := h (-60) 0 he hi
  norm_num at h60

/-- C9 amended: for tokens issued with the default expiry (no override, or
a zero override, which Python truthiness sends to the default) or any
positive override, and positive configured default TTLs, `exp` is strictly
greater than `iat`, for both the access and the refresh issuing
operations; a negative override violates the inequality. -/
theorem exp_gt_iat_for_nonnegative_deltas (s : Settings) (key : String)
    (data : Payload) (d : Option Int) (now : Int)
    (haccess : 0 < s.accessTokenExpireMinutes)
    (hrefresh : 0 < s.refreshTokenExpireDays)
    (hd : ∀ x, d = some x → 0 ≤ x) :
    expGtIat (create_access_token s key data d now) ∧
    expGtIat (create_refresh_token s key data d now) := by
  constructor
  · intro e i he hi
    simp [create_access_token] at he hi
    cases d with
    | none =>
        simp at he
        omega
    | some x =>
        have hx := hd x rfl
        by_cases hx0 : x = 0
        · subst hx0
          simp at he
          omega
        · simp [hx0] at he
          omega
  · intro e i he hi
    simp [create_refresh_token] at he hi
    cases d with
    | none =>
        simp at he
        omega
    | some x =>
        have hx := hd x rfl
        by_cases hx0 : x = 0
        · subst hx0
          simp at he
          omega
        · simp [hx0] at he
          omega

/-- Witness for `exp_gt_iat_for_nonnegative_deltas`: the default settings
with no override, issuing at time 0. -/
theorem exp_gt_iat_for_nonnegative_deltas_witness :
    ((0 : Int) < defaultSettings.accessTokenExpireMinutes ∧
     (0 : Int) < defaultSettings.refreshTokenExpireDays ∧
     (∀ x : Int, (none : Option Int) = some x → 0 ≤ x)) ∧
    (expGtIat (create_access_token defaultSettings "k" { sub := some "alice" } none 0) ∧
     expGtIat (create_refresh_token defaultSettings "k" { sub := some "alice" } none 0)) :=
  ⟨⟨by decide, by decide, fun _ h => nomatch h⟩,
   exp_gt_iat_for_nonnegative_deltas defaultSettings "k" { sub := some "alice" } none 0
     (by decide) (by decide) (fun _ h => nomatch h)⟩

/-- C10: `verify_password` is total over its oracle: whatever boolean the
`passlib` verifier returns is passed through, and any exception it raises
(malformed or non-bcrypt stored hash included) is caught and turned into
`false`; no error escapes to the caller. -/
theorem verify_password_total (pv : String → String → Except String Bool)
    (plain hashed : String) :
    (∀ err, pv plain hashed = .error err → verify_password pv plain hashed = false) ∧
    (∀ b, pv plain hashed = .ok b → verify_password pv plain hashed = b) := by
  constructor
  · intro err h
    simp [verify_password, h]
  · intro b h
    simp [verify_password, h]

/-- Witness for `verify_password_total`: an oracle that raises (as passlib
does on a non-bcrypt stored hash) yields `false`. -/
theorem verify_password_total_witness :
    verify_password (fun _ _ => .error "unknown hash format") "secret" "not-a-hash" = false :=
  (verify_password_total (fun _ _ => .error "unknown hash format") "secret" "not-a-hash").1
    "unknown hash format" rfl
